import Mathlib

/-!
# Verification of the quiz-editor backend's problem/tag/comment CRUD layer

Shallow embedding of `app/model.py`, `app/schema.py`, `app/main.py` and the
handlers in `app/api/problem.py`, `app/api/tag.py`, `app/api/comment.py`.
Rows are modelled at the level the ORM materialises them: every non-primary
column is `Option`-typed (SQL NULL is `none`); DB-managed timestamp columns
(`created_at`, `updated_at`, assigned by `func.now()` server defaults) carry
no application logic and are not modelled.  The `CommentGroup` model class
and the `comment_group_id` column of `Comment` are imported by the API
modules and exercised by the repository's tests but absent from the model
source; they are modelled from the spec where so marked.
-/

namespace QuizBackend

/-- Row of the `problem` table (`app/model.py`, class `Problem`).  The
many-to-many `problem_tag` association rows for this problem are carried as
the list of associated tag ids, mirroring the ORM's `tags` relationship. -/
structure ProblemRow where
  problem_id : Nat
  problem_text : Option String
  answer : Option String
  original_text : Option String
  genre_id : Option Int
  sort_order : Option Int
  created_by : Option Nat
  updated_by : Option Nat
  tags : List Nat
deriving Repr, DecidableEq

/-- Row of the `tag` table (`app/model.py`, class `Tag`). -/
structure TagRow where
  tag_id : Nat
  tag_group_id : Option Nat
  tag_name : Option String
  sort_order : Option Int
  created_by : Option Nat
  updated_by : Option Nat
deriving Repr, DecidableEq

/-- Row of the `tag_group` table (`app/model.py`, class `TagGroup`). -/
structure TagGroupRow where
  tag_group_id : Nat
  group_name : Option String
  created_by : Option Nat
  updated_by : Option Nat
deriving Repr, DecidableEq

/-- Row of the `comment` table (`app/model.py`, class `Comment`).
The `comment_group_id` column is Modelled from the spec: the data model
section gives Comment an optional CommentGroup reference and the comment
API reads and writes that attribute, but the column is missing from the
model source under `src/`. -/
structure CommentRow where
  comment_id : Nat
  problem_id : Option Nat
  comment_group_id : Option Nat
  title : Option String
  body : Option String
  created_by : Option Nat
  updated_by : Option Nat
deriving Repr, DecidableEq

/-- Modelled from the spec: row of the `comment_group` table.  The
`CommentGroup` model class is imported by `app/api/comment.py` and
`app/api/problem.py` and created in the repository's model tests with a
`group_name` attribute, but its definition is absent from the model source
under `src/`; the spec describes it as carrying a name only (plus the
creator/updater references every entity carries). -/
structure CommentGroupRow where
  comment_group_id : Nat
  group_name : Option String
  created_by : Option Nat
  updated_by : Option Nat
deriving Repr, DecidableEq

/-- Row of the `judging_criteria` table (`app/model.py`, class
`JudgingCriteria`); the generated `criteria_id` primary key plays no role in
any handler and is not modelled. -/
structure JudgingCriteriaRow where
  problem_id : Option Nat
  criteria_type : Option String
  criteria_text : Option String
deriving Repr, DecidableEq

/-- The stored state: one list of rows per table touched by the handlers. -/
structure DB where
  problems : List ProblemRow
  tags : List TagRow
  tagGroups : List TagGroupRow
  comments : List CommentRow
  commentGroups : List CommentGroupRow
  judgingCriteria : List JudgingCriteriaRow
deriving Repr, DecidableEq

/-- Outcome of a handler that does not return normally: either an
`HTTPException(status_code, detail)` raised by the handler itself, or an
uncaught Python exception escaping the handler (surfaced as a server
error). -/
inductive OpError where
  | http (status : Nat) (detail : String)
  | pyError (msg : String)
deriving Repr, DecidableEq

/-! ## SQL LIKE matching (for `Problem.problem_text.ilike(f"%{keyword}%")`)

`likeMatch pat text` is SQL `text LIKE pat` made case-insensitive (ILIKE):
`%` matches any sequence of characters, `_` matches exactly one character,
any other pattern character matches itself up to case.  No escape character
is modelled (SQLite semantics; the handler passes the user keyword into the
pattern unescaped). -/

/-- Case-insensitive character comparison used by ILIKE. -/
def charEqCI (a b : Char) : Bool := a.toLower == b.toLower

/-- All suffixes of a list, longest first, ending with `[]`. -/
def tailsOf : List α → List (List α)
  | [] => [[]]
  | a :: as => (a :: as) :: tailsOf as

/-- ILIKE pattern matching over character lists. -/
def likeMatch : List Char → List Char → Bool
  | [], ts => ts.isEmpty
  | p :: ps, ts =>
    if p = '%' then (tailsOf ts).any (fun s => likeMatch ps s)
    else if p = '_' then
      match ts with
      | [] => false
      | _ :: ts2 => likeMatch ps ts2
    else
      match ts with
      | [] => false
      | t :: ts2 => charEqCI p t && likeMatch ps ts2

/-- Case-insensitive prefix test over character lists (spec side). -/
def prefixCI : List Char → List Char → Bool
  | [], _ => true
  | _ :: _, [] => false
  | a :: as, b :: bs => charEqCI a b && prefixCI as bs

/-- Spec-side predicate, following the spec's words: `text` contains the
keyword case-insensitively as a substring (no tokenization, no ranking). -/
def substrCI (kw text : List Char) : Bool :=
  (tailsOf text).any (fun s => prefixCI kw s)

/-- The filter the handler builds for a keyword:
`Problem.problem_text.ilike(f"%{keyword}%")`.  A NULL text never matches
(SQL three-valued logic). -/
def ilikeKeyword (kw : String) (text : Option String) : Bool :=
  match text with
  | none => false
  | some t => likeMatch ('%' :: (kw.toList ++ ['%'])) t.toList

/-! ## Sort-key resolution (`read_problems`, `app/api/problem.py` 65-74) -/

/-- The mapped columns of the `Problem` model: the only attribute names for
which `getattr(Problem, key)` is an orderable SQL column expression. -/
def problemColumnAttrs : List String :=
  ["problem_id", "problem_text", "answer", "original_text", "genre_id",
   "sort_order", "created_at", "updated_at", "created_by", "updated_by"]

/-- The relationship attributes of the `Problem` model. -/
def problemRelationshipAttrs : List String :=
  ["genre", "tags", "comments", "judging_criteria"]

/-- The fields of the data model's Problem entity: its mapped columns and
relationships. -/
def problemFields : List String := problemColumnAttrs ++ problemRelationshipAttrs

/-- Non-field class attributes for which `hasattr` is also true on every
declarative model class: the declarative machinery (`metadata`, `registry`,
`__tablename__`, `__table__`, `__mapper__`) and the standard attributes
every Python class inherits from `object`.  The list is representative —
the exact inherited set varies with the Python and ORM version — and every
element behaves identically in the handler: `hasattr` accepts it, and its
`getattr` result is not a mapped column. -/
def classMachineryAttrs : List String :=
  ["metadata", "registry", "__tablename__", "__table__", "__mapper__",
   "__init__", "__class__", "__dict__", "__doc__", "__module__",
   "__weakref__", "__new__", "__init_subclass__", "__subclasshook__",
   "__setattr__", "__getattribute__", "__delattr__", "__eq__", "__ne__",
   "__lt__", "__le__", "__gt__", "__ge__", "__hash__", "__repr__",
   "__str__", "__dir__", "__sizeof__", "__format__", "__reduce__",
   "__reduce_ex__", "__getstate__"]

/-- The attribute names for which `hasattr(Problem, key)` is true: the
mapped fields and the non-field class attributes. -/
def problemAttrs : List String := problemFields ++ classMachineryAttrs

/-- The fields of the data model's Tag entity: its mapped columns and
relationships. -/
def tagFields : List String :=
  ["tag_id", "tag_group_id", "tag_name", "sort_order", "created_at",
   "updated_at", "created_by", "updated_by", "tag_group", "problems"]

/-- The attribute names for which `hasattr(Tag, key)` is true.  The
non-field class attributes are shared with `Problem` (same declarative
base, same object machinery), so the handler's `elif hasattr(Tag, key)`
branch only ever fires for Tag-specific mapped fields; they are listed here
all the same for fidelity of the `hasattr` test itself. -/
def tagAttrs : List String := tagFields ++ classMachineryAttrs

/-- A resolved ordering key: `getattr(Problem, key)` for any attribute the
`Problem` class has (a mapped column, a relationship, or class machinery —
the handler appends whatever `getattr` returns), or `Tag.tag_name` for a
key recognised on `Tag` instead. -/
inductive OrderKey where
  | problemAttr (name : String)
  | tagName
deriving Repr, DecidableEq

/-- Splitting tail of Python's `str.split(sep)` for a one-character
separator: `acc` holds the characters of the current piece in reverse. -/
def splitAux (sep : Char) : List Char → List Char → List String
  | [], acc => [String.mk acc.reverse]
  | c :: cs, acc =>
    if c = sep then String.mk acc.reverse :: splitAux sep cs []
    else splitAux sep cs (c :: acc)

/-- Python's `str.split(sep)` for a one-character separator: every maximal
separator-free piece, empty pieces included (`"".split(",") == [""]`). -/
def pySplit (sep : Char) (s : String) : List String := splitAux sep s.toList []

/-- The `for key in order_by.split(",")` loop: a Problem attribute is
appended as itself, otherwise a Tag attribute is appended as
`Tag.tag_name`, otherwise the key is skipped. -/
def resolveLoop : List String → List OrderKey
  | [] => []
  | key :: rest =>
    if key ∈ problemAttrs then OrderKey.problemAttr key :: resolveLoop rest
    else if key ∈ tagAttrs then OrderKey.tagName :: resolveLoop rest
    else resolveLoop rest

/-- Sort keys resolved from a raw `order_by` query string. -/
def resolveOrderKeys (order_by : String) : List OrderKey :=
  resolveLoop (pySplit ',' order_by)

/-- Comparison of nullable column values; the relative placement of NULLs
is not relied on by any claim. -/
def cmpOpt (cmp : α → α → Ordering) : Option α → Option α → Ordering
  | none, none => Ordering.eq
  | none, some _ => Ordering.lt
  | some _, none => Ordering.gt
  | some a, some b => cmp a b

/-- Ordering effect of one `Problem` attribute used as a sort key.  The
timestamp columns are not modelled and relationship attributes have no
modelled ordering effect, so those compare equal. -/
def problemFieldCmp (name : String) (p q : ProblemRow) : Ordering :=
  if name = "problem_id" then compare p.problem_id q.problem_id
  else if name = "problem_text" then cmpOpt compare p.problem_text q.problem_text
  else if name = "answer" then cmpOpt compare p.answer q.answer
  else if name = "original_text" then cmpOpt compare p.original_text q.original_text
  else if name = "genre_id" then cmpOpt compare p.genre_id q.genre_id
  else if name = "sort_order" then cmpOpt compare p.sort_order q.sort_order
  else if name = "created_by" then cmpOpt compare p.created_by q.created_by
  else if name = "updated_by" then cmpOpt compare p.updated_by q.updated_by
  else Ordering.eq

/-- Lexicographic combination of resolved keys over problem rows alone,
each key reversed when `order_dir` was `"DESC"` (the source wraps every key
in `.desc()`).  This comparator is only ever applied to key lists without
`tagName`: a key list containing `tagName` takes the cross-join path in
[`applyOrdering`], so the `tagName` case here is unreachable. -/
def chainCmp (desc : Bool) : List OrderKey → ProblemRow → ProblemRow → Ordering
  | [], _, _ => Ordering.eq
  | k :: ks, p, q =>
    let o := match k with
      | OrderKey.problemAttr n => problemFieldCmp n p q
      | OrderKey.tagName => Ordering.eq
    match (if desc then o.swap else o) with
    | Ordering.eq => chainCmp desc ks p q
    | o2 => o2

/-- Ordering effect of one resolved key on a row of the implicit
problem-by-tag cross join. -/
def pairFieldCmp (k : OrderKey) (a b : ProblemRow × TagRow) : Ordering :=
  match k with
  | OrderKey.problemAttr n => problemFieldCmp n a.1 b.1
  | OrderKey.tagName => cmpOpt compare a.2.tag_name b.2.tag_name

/-- Lexicographic combination of the resolved keys over cross-join rows. -/
def pairChainCmp (desc : Bool) :
    List OrderKey → ProblemRow × TagRow → ProblemRow × TagRow → Ordering
  | [], _, _ => Ordering.eq
  | k :: ks, a, b =>
    match (if desc then (pairFieldCmp k a b).swap else pairFieldCmp k a b) with
    | Ordering.eq => pairChainCmp desc ks a b
    | o2 => o2

/-- Stable insertion into a sorted list: `x` goes before the first element
not strictly below it. -/
def insertSorted (lt : α → α → Bool) (x : α) : List α → List α
  | [] => [x]
  | y :: ys => if lt y x then y :: insertSorted lt x ys else x :: y :: ys

/-- Stable insertion sort (`ORDER BY` is modelled as a stable sort of the
filtered rows). -/
def stableSort (lt : α → α → Bool) : List α → List α
  | [] => []
  | x :: xs => insertSorted lt x (stableSort lt xs)

/-! ## Applying the resolved sort keys -/

/-- Whether a resolved sort key is something `Query.order_by` (and `.desc()`
under `order_dir=DESC`) accepts: only `getattr` results that are mapped
columns are SQL column expressions.  For a relationship attribute or class
machinery such as `metadata`, `.desc()` raises and `order_by` rejects the
argument, so the request fails. -/
def orderKeyValid : OrderKey → Bool
  | OrderKey.problemAttr n => decide (n ∈ problemColumnAttrs)
  | OrderKey.tagName => true

/-- The exception escaping `read_problems` when a resolved sort key is not
a mapped column: with `order_dir=DESC` the `.desc()` call on the `getattr`
result raises, and otherwise `Query.order_by` rejects the argument as not
being a SQL expression; either way the listing request fails instead of
dropping the key. -/
def orderKeyError : OpError :=
  OpError.pyError "order_by key resolved to a non-column attribute"

/-- The FROM-clause cross product created when `Tag.tag_name` is used as a
sort key without joining the tag table. -/
def crossJoin (ps : List ProblemRow) (ts : List TagRow) : List (ProblemRow × TagRow) :=
  ps.flatMap (fun p => ts.map (fun t => (p, t)))

/-- First-occurrence deduplication by primary key: the legacy `Query.all()`
API uniquifies full-entity result rows, so each problem of the cross join
survives once, at its first position in the ordered rows. -/
def dedupByIdAux (seen : List Nat) : List ProblemRow → List ProblemRow
  | [] => []
  | p :: ps =>
    if p.problem_id ∈ seen then dedupByIdAux seen ps
    else p :: dedupByIdAux (p.problem_id :: seen) ps

/-- First-occurrence deduplication by primary key. -/
def dedupById (l : List ProblemRow) : List ProblemRow := dedupByIdAux [] l

/-- `query.order_by(*order_keys)` on the filtered rows `q`.  A non-column
key fails the request.  A `Tag.tag_name` key references the tag table
without a join: the rows become the problem-by-tag cross product, sorted by
the key chain, and entity deduplication keeps each problem's first
occurrence — with an empty tag table the listing comes back empty. -/
def applyOrdering (db : DB) (order_dir : Option String) (ks : List OrderKey)
    (q : List ProblemRow) : Except OpError (List ProblemRow) :=
  if ks.all orderKeyValid then
    let desc := order_dir == some "DESC"
    if ks.contains OrderKey.tagName then
      Except.ok (dedupById
        ((stableSort (fun a b => pairChainCmp desc ks a b == Ordering.lt)
          (crossJoin q db.tags)).map (fun a => a.1)))
    else
      Except.ok (stableSort (fun p r => chainCmp desc ks p r == Ordering.lt) q)
  else Except.error orderKeyError

/-! ## `GET /problems/` (`read_problems`, `app/api/problem.py` 29-76) -/

/-- The dynamic filter/sort query builder.  Each `if param:` guard is
Python truthiness: `None`, `0`, the empty list and the empty string all
skip the corresponding clause.  The result is `Except`-valued because a
truthy `order_by` can make the request fail (see [`applyOrdering`]); every
other path succeeds. -/
def read_problems (db : DB) (genre_id : Option Int) (tag_id : Option (List Nat))
    (keyword : Option String) (order_by : Option String)
    (order_dir : Option String) : Except OpError (List ProblemRow) :=
  let q := db.problems
  let q := match genre_id with
    | some g => if g = 0 then q else q.filter (fun p => p.genre_id == some g)
    | none => q
  let q := match tag_id with
    | some ids =>
      if ids.isEmpty then q
      else q.filter (fun p =>
        p.tags.any (fun tid =>
          db.tags.any (fun t => t.tag_id == tid && List.elem t.tag_id ids)))
    | none => q
  let q := match keyword with
    | some kw => if kw.isEmpty then q else q.filter (fun p => ilikeKeyword kw p.problem_text)
    | none => q
  match order_by with
  | some ob =>
    if ob.isEmpty then Except.ok q
    else applyOrdering db order_dir (resolveOrderKeys ob) q
  | none => Except.ok q

/-! ## Validated request bodies (`app/schema.py`)

The code's `model_dump`/`model_dump(exclude_unset=True)` calls pin
pydantic v2, and under v2 a field typed `T | None` with no default is
required: a request body must supply every declared field (an explicit
JSON `null` is allowed for the nullable ones) or validation rejects it
with 422 before the handler runs.  Two layers are modelled:

* `...Body` structures are raw request bodies prior to validation — each
  field is absent or present — together with `validate...` functions
  carrying out the v2 requiredness check;
* `...Data` / `...UpdateData` structures are the dict a handler receives.
  For updates this is the `model_dump(exclude_unset=True)` dict consumed by
  the `setattr` loop: `Option (Option _)` fields record key presence
  (outer) and JSON `null` (inner).  Because v2 makes every field required,
  every dict that actually reaches a handler has all keys present; the
  unset components exist so the loop itself is embedded exactly as
  written. -/

/-- `JudgingCriteriaCreate`: both fields required strings. -/
structure JudgingCriteriaCreateData where
  criteria_type : String
  criteria_text : String
deriving Repr, DecidableEq

/-- `JudgingCriteriaUpdate`: both fields nullable. -/
structure JudgingCriteriaUpdateData where
  criteria_type : Option String
  criteria_text : Option String
deriving Repr, DecidableEq

/-- `ProblemCreate` after validation. -/
structure ProblemCreateData where
  problem_text : String
  answer : String
  original_text : Option String
  genre_id : Option Int
  sort_order : Option Int
  tags : List Nat
  judging_criteria : List JudgingCriteriaCreateData
deriving Repr, DecidableEq

/-- `ProblemUpdate` dumped with `exclude_unset=True` (see the section
comment: under pydantic v2 every component is `some` for any dict a real
request produces).  A `tags` value is modelled as the list of tag ids from
the body; a JSON `null` for `tags` engages ORM relationship machinery
outside this model and is not represented. -/
structure ProblemUpdateData where
  problem_text : Option (Option String) := none
  answer : Option (Option String) := none
  original_text : Option (Option String) := none
  genre_id : Option (Option Int) := none
  sort_order : Option (Option Int) := none
  tags : Option (List Nat) := none
  judging_criteria : Option (Option (List JudgingCriteriaUpdateData)) := none
deriving Repr, DecidableEq

/-- `TagUpdate` dumped with `exclude_unset=True`. -/
structure TagUpdateData where
  tag_name : Option (Option String) := none
  sort_order : Option (Option Int) := none
deriving Repr, DecidableEq

/-- `TagGroupUpdate` dumped with `exclude_unset=True`. -/
structure TagGroupUpdateData where
  group_name : Option (Option String) := none
deriving Repr, DecidableEq

/-- `CommentCreate` after validation: `comment_group_id` nullable, `body` a
plain required string — `app/schema.py` places no length constraint on it. -/
structure CommentCreateData where
  comment_group_id : Option Nat
  body : String
deriving Repr, DecidableEq

/-- `CommentUpdate` dumped with `exclude_unset=True`. -/
structure CommentUpdateData where
  comment_group_id : Option (Option Nat) := none
  body : Option (Option String) := none
deriving Repr, DecidableEq

/-- `CommentGroupUpdate` dumped with `exclude_unset=True`. -/
structure CommentGroupUpdateData where
  group_name : Option (Option String) := none
deriving Repr, DecidableEq

/-- A raw `CommentCreate` request body before validation: each field is
either absent, or present (with `null` represented for the nullable
field). -/
structure CommentCreateBody where
  comment_group_id : Option (Option Nat)
  body : Option String
deriving Repr, DecidableEq

/-- Schema validation of `CommentCreate` (`app/schema.py` 123-132): both
declared fields must be present and well-typed; `body : str` carries no
minimum-length constraint, so any string value — the empty string
included — validates. -/
def validateCommentCreate (b : CommentCreateBody) : Except OpError CommentCreateData :=
  match b.body with
  | none => Except.error (OpError.http 422 "body: field required")
  | some s =>
    match b.comment_group_id with
    | none => Except.error (OpError.http 422 "comment_group_id: field required")
    | some g => Except.ok { comment_group_id := g, body := s }

/-- A raw `ProblemUpdate` request body: which of the seven schema fields
the JSON body provides (inner layer: an explicit JSON `null`).  As for
[`ProblemUpdateData`], a `null` value for `tags` is not represented. -/
structure ProblemUpdateBody where
  problem_text : Option (Option String) := none
  answer : Option (Option String) := none
  original_text : Option (Option String) := none
  genre_id : Option (Option Int) := none
  sort_order : Option (Option Int) := none
  tags : Option (List Nat) := none
  judging_criteria : Option (Option (List JudgingCriteriaUpdateData)) := none
deriving Repr, DecidableEq

/-- Schema validation of `ProblemUpdate` under pydantic v2: every field is
typed `T | None` with no default, hence required; a body omitting any field
is rejected with 422 before the handler runs, so the intended partial
update never reaches the `setattr` loop. -/
def validateProblemUpdate (b : ProblemUpdateBody) : Except OpError ProblemUpdateData :=
  match b.problem_text, b.answer, b.original_text, b.genre_id,
      b.sort_order, b.tags, b.judging_criteria with
  | some pt, some a, some ot, some g, some s, some t, some jc =>
    Except.ok
      { problem_text := some pt, answer := some a, original_text := some ot,
        genre_id := some g, sort_order := some s, tags := some t,
        judging_criteria := some jc }
  | _, _, _, _, _, _, _ => Except.error (OpError.http 422 "Field required")

/-- A raw `TagUpdate` request body. -/
structure TagUpdateBody where
  tag_name : Option (Option String) := none
  sort_order : Option (Option Int) := none
deriving Repr, DecidableEq

/-- Schema validation of `TagUpdate` under pydantic v2: both fields are
required, so a body setting only one of them is rejected with 422. -/
def validateTagUpdate (b : TagUpdateBody) : Except OpError TagUpdateData :=
  match b.tag_name, b.sort_order with
  | some n, some s => Except.ok { tag_name := some n, sort_order := some s }
  | _, _ => Except.error (OpError.http 422 "Field required")

/-! ## Server-assigned primary keys -/

/-- Next value of an autoincrement primary-key column. -/
def nextId (taken : List Nat) : Nat := taken.foldr max 0 + 1

def next_problem_id (db : DB) : Nat := nextId (db.problems.map (fun p => p.problem_id))

def next_comment_id (db : DB) : Nat := nextId (db.comments.map (fun c => c.comment_id))

/-! ## Problem handlers (`app/api/problem.py`) -/

/-- The uncaught exception raised by `criteria_data.dict()`: `model_dump()`
(pydantic v2) recursively converts the nested `JudgingCriteriaCreate` /
`JudgingCriteriaUpdate` models into plain dicts, and a plain dict has no
`dict` method. -/
def dictOnDictError : OpError :=
  OpError.pyError "AttributeError: dict object has no attribute dict"

/-- The uncaught exception raised when a list of plain integer ids is
assigned to the instrumented `tags` relationship (`Problem(**problem_data)`
on create, `setattr(db_problem, 'tags', value)` on update): the collection
machinery adapts each member as a mapped entity and raises on the first
`int`.  Only the empty list is adopted without touching a member. -/
def relationshipAssignError : OpError :=
  OpError.pyError "AttributeError: int object has no attribute _sa_instance_state"

/-- `create_problem` (`app/api/problem.py` 79-101).  The handler dumps the
validated body and builds the row with `Problem(**problem_data)`: a
non-empty `tags` list raises there ([`relationshipAssignError`], the dump's
plain ints are not mapped entities).  It then iterates
`problem_data.get('judging_criteria', [])` calling `criteria_data.dict()`
on every element; those elements are plain dicts after `model_dump()`, so
the first one raises `AttributeError` before `db.add`/`db.commit` run, and
the stored state is unchanged.  Only an empty criteria list reaches the
commit. -/
def create_problem (db : DB) (pc : ProblemCreateData) : DB × Except OpError ProblemRow :=
  match pc.tags with
  | _ :: _ => (db, Except.error relationshipAssignError)
  | [] =>
    if pc.judging_criteria.isEmpty then
      let row : ProblemRow :=
        { problem_id := next_problem_id db
          problem_text := some pc.problem_text
          answer := some pc.answer
          original_text := pc.original_text
          genre_id := pc.genre_id
          sort_order := pc.sort_order
          created_by := none
          updated_by := none
          tags := [] }
      ({ db with problems := db.problems ++ [row] }, Except.ok row)
    else (db, Except.error dictOnDictError)

/-- `read_problem` (`app/api/problem.py` 104-118). -/
def read_problem (db : DB) (problem_id : Nat) : Except OpError ProblemRow :=
  match db.problems.find? (fun p => p.problem_id == problem_id) with
  | none => Except.error (OpError.http 404 "Problem not found")
  | some p => Except.ok p

/-- The scalar-column part of the `update_problem` loop: overwrite exactly
the fields present in `model_dump(exclude_unset=True)`, in schema field
order.  The `tags` and `judging_criteria` keys are handled in
[`update_problem`] itself, where they can raise. -/
def applyProblemScalarUpdate (r : ProblemRow) (u : ProblemUpdateData) : ProblemRow :=
  let r := match u.problem_text with
    | some v => { r with problem_text := v }
    | none => r
  let r := match u.answer with
    | some v => { r with answer := v }
    | none => r
  let r := match u.original_text with
    | some v => { r with original_text := v }
    | none => r
  let r := match u.genre_id with
    | some v => { r with genre_id := v }
    | none => r
  match u.sort_order with
  | some v => { r with sort_order := v }
  | none => r

/-- `update_problem` (`app/api/problem.py` 121-151).  A present `tags` key
is a `setattr` onto the instrumented relationship: any non-empty list of
ids raises ([`relationshipAssignError`]); assigning the empty list empties
the association.  A present `judging_criteria` key is special-cased: the
handler iterates its value calling `criteria_data.dict()` — a
[`dictOnDictError`] on the first element (the elements are plain dicts
after `model_dump`), and iterating a JSON `null` value raises `TypeError`.
Every such exception escapes before `db.commit`, leaving the stored state
unchanged.  An empty criteria list adds no criteria rows. -/
def update_problem (db : DB) (problem_id : Nat) (u : ProblemUpdateData) :
    DB × Except OpError ProblemRow :=
  match db.problems.find? (fun p => p.problem_id == problem_id) with
  | none => (db, Except.error (OpError.http 404 "Problem not found"))
  | some p =>
    match u.tags with
    | some (_ :: _) => (db, Except.error relationshipAssignError)
    | _ =>
      match u.judging_criteria with
      | some none =>
        (db, Except.error (OpError.pyError "TypeError: NoneType object is not iterable"))
      | some (some (_ :: _)) => (db, Except.error dictOnDictError)
      | _ =>
        let p2 := applyProblemScalarUpdate p u
        let p2 := if u.tags == some [] then { p2 with tags := [] } else p2
        ({ db with problems :=
            db.problems.map (fun r => if r.problem_id == problem_id then p2 else r) },
         Except.ok p2)

/-- `delete_problem` (`app/api/problem.py` 154-169). -/
def delete_problem (db : DB) (problem_id : Nat) : DB × Except OpError Unit :=
  match db.problems.find? (fun p => p.problem_id == problem_id) with
  | none => (db, Except.error (OpError.http 404 "Problem not found"))
  | some _ =>
    ({ db with problems := db.problems.eraseP (fun r => r.problem_id == problem_id) },
     Except.ok ())

/-! ## Tag and TagGroup handlers (`app/api/tag.py`) -/

/-- The `setattr` loop of `update_tag_group`. -/
def applyTagGroupUpdate (r : TagGroupRow) (u : TagGroupUpdateData) : TagGroupRow :=
  match u.group_name with
  | some v => { r with group_name := v }
  | none => r

/-- `update_tag_group` (`app/api/tag.py` 52-80). -/
def update_tag_group (db : DB) (tag_group_id : Nat) (u : TagGroupUpdateData) :
    DB × Except OpError TagGroupRow :=
  match db.tagGroups.find? (fun g => g.tag_group_id == tag_group_id) with
  | none => (db, Except.error (OpError.http 404 "TagGroup not found"))
  | some g =>
    let g2 := applyTagGroupUpdate g u
    ({ db with tagGroups :=
        db.tagGroups.map (fun r => if r.tag_group_id == tag_group_id then g2 else r) },
     Except.ok g2)

/-- `delete_tag_group` (`app/api/tag.py` 83-100). -/
def delete_tag_group (db : DB) (tag_group_id : Nat) : DB × Except OpError Unit :=
  match db.tagGroups.find? (fun g => g.tag_group_id == tag_group_id) with
  | none => (db, Except.error (OpError.http 404 "TagGroup not found"))
  | some _ =>
    ({ db with tagGroups := db.tagGroups.eraseP (fun r => r.tag_group_id == tag_group_id) },
     Except.ok ())

/-- The `setattr` loop of `update_tag`, in schema field order. -/
def applyTagUpdate (r : TagRow) (u : TagUpdateData) : TagRow :=
  let r := match u.tag_name with
    | some v => { r with tag_name := v }
    | none => r
  match u.sort_order with
  | some v => { r with sort_order := v }
  | none => r

/-- `update_tag` (`app/api/tag.py` 139-163). -/
def update_tag (db : DB) (tag_id : Nat) (u : TagUpdateData) : DB × Except OpError TagRow :=
  match db.tags.find? (fun t => t.tag_id == tag_id) with
  | none => (db, Except.error (OpError.http 404 "Tag not found"))
  | some t =>
    let t2 := applyTagUpdate t u
    ({ db with tags := db.tags.map (fun r => if r.tag_id == tag_id then t2 else r) },
     Except.ok t2)

/-! ## Comment and CommentGroup handlers (`app/api/comment.py`) -/

/-- `create_comment` (`app/api/comment.py` 33-55): builds a `Comment` from
the validated body, forces `problem_id` from the path, persists and returns
it. -/
def create_comment (db : DB) (problem_id : Nat) (c : CommentCreateData) :
    DB × Except OpError CommentRow :=
  let row : CommentRow :=
    { comment_id := next_comment_id db
      problem_id := some problem_id
      comment_group_id := c.comment_group_id
      title := none
      body := some c.body
      created_by := none
      updated_by := none }
  ({ db with comments := db.comments ++ [row] }, Except.ok row)

/-- The `setattr` loop of `update_comment`, in schema field order. -/
def applyCommentUpdate (r : CommentRow) (u : CommentUpdateData) : CommentRow :=
  let r := match u.comment_group_id with
    | some v => { r with comment_group_id := v }
    | none => r
  match u.body with
  | some v => { r with body := v }
  | none => r

/-- `update_comment` (`app/api/comment.py` 58-82). -/
def update_comment (db : DB) (comment_id : Nat) (u : CommentUpdateData) :
    DB × Except OpError CommentRow :=
  match db.comments.find? (fun c => c.comment_id == comment_id) with
  | none => (db, Except.error (OpError.http 404 "Comment not found"))
  | some c =>
    let c2 := applyCommentUpdate c u
    ({ db with comments := db.comments.map (fun r => if r.comment_id == comment_id then c2 else r) },
     Except.ok c2)

/-- `delete_comment` (`app/api/comment.py` 85-100). -/
def delete_comment (db : DB) (comment_id : Nat) : DB × Except OpError Unit :=
  match db.comments.find? (fun c => c.comment_id == comment_id) with
  | none => (db, Except.error (OpError.http 404 "Comment not found"))
  | some _ =>
    ({ db with comments := db.comments.eraseP (fun r => r.comment_id == comment_id) },
     Except.ok ())

/-- The `setattr` loop of `update_comment_group`. -/
def applyCommentGroupUpdate (r : CommentGroupRow) (u : CommentGroupUpdateData) :
    CommentGroupRow :=
  match u.group_name with
  | some v => { r with group_name := v }
  | none => r

/-- `update_comment_group` (`app/api/comment.py` 139-171). -/
def update_comment_group (db : DB) (comment_group_id : Nat) (u : CommentGroupUpdateData) :
    DB × Except OpError CommentGroupRow :=
  match db.commentGroups.find? (fun g => g.comment_group_id == comment_group_id) with
  | none => (db, Except.error (OpError.http 404 "CommentGroup not found"))
  | some g =>
    let g2 := applyCommentGroupUpdate g u
    ({ db with commentGroups :=
        db.commentGroups.map (fun r => if r.comment_group_id == comment_group_id then g2 else r) },
     Except.ok g2)

/-- `delete_comment_group` (`app/api/comment.py` 174-193). -/
def delete_comment_group (db : DB) (comment_group_id : Nat) : DB × Except OpError Unit :=
  match db.commentGroups.find? (fun g => g.comment_group_id == comment_group_id) with
  | none => (db, Except.error (OpError.http 404 "CommentGroup not found"))
  | some _ =>
    ({ db with commentGroups :=
        db.commentGroups.eraseP (fun r => r.comment_group_id == comment_group_id) },
     Except.ok ())

/-! ## Application wiring (`app/main.py`, `app/api/*.py`)

Each module calls `FastAPI()` and gets its own application object.  Routes
are registered on the module's own object; the `RequestValidationError`
handler returning `JSONResponse(content={}, status_code=422)` is registered
in `app/main.py` on the object created there, and nothing mounts or
includes one application in another. -/

/-- One `FastAPI()` application object: its registered (method, path)
routes and whether the custom `RequestValidationError` handler from
`app/main.py` is registered on it. -/
structure AppInstance where
  routes : List (String × String)
  hasCustomValidationHandler : Bool
deriving Repr, DecidableEq

/-- Body of a 422 response: the empty JSON object produced by the custom
handler, or FastAPI's default body carrying the validation error list. -/
inductive ValidationBody where
  | emptyObject
  | detailList (errors : List String)
deriving Repr, DecidableEq

/-- Response an application produces when a request body fails schema
validation: the custom handler yields status 422 with an empty JSON body,
the framework default yields status 422 with the detailed error list. -/
def respondValidationFailure (a : AppInstance) (errors : List String) :
    Nat × ValidationBody :=
  if a.hasCustomValidationHandler then (422, ValidationBody.emptyObject)
  else (422, ValidationBody.detailList errors)

/-- The application created in `app/main.py`: it registers the custom
validation handler and defines no routes. -/
def mainApp : AppInstance := { routes := [], hasCustomValidationHandler := true }

/-- The application created at `app/api/problem.py` line 25, carrying every
entity route defined in that module and no custom exception handler. -/
def problemApiApp : AppInstance :=
  { routes :=
      [("GET", "/problems/"), ("POST", "/problems/"),
       ("GET", "/problems/\x7bproblem_id\x7d"), ("PUT", "/problems/\x7bproblem_id\x7d"),
       ("DELETE", "/problems/\x7bproblem_id\x7d"),
       ("GET", "/tag-groups/"), ("POST", "/tag-groups/"),
       ("PUT", "/tag-groups/\x7btag_group_id\x7d"), ("DELETE", "/tag-groups/\x7btag_group_id\x7d"),
       ("GET", "/tag-groups/\x7btag_group_id\x7d/tags/"), ("POST", "/tag-groups/\x7btag_group_id\x7d/tags/"),
       ("PUT", "/tags/\x7btag_id\x7d"),
       ("GET", "/problems/\x7bproblem_id\x7d/comments/"), ("POST", "/problems/\x7bproblem_id\x7d/comments/"),
       ("PUT", "/comments/\x7bcomment_id\x7d"), ("DELETE", "/comments/\x7bcomment_id\x7d"),
       ("GET", "/comment-groups/"), ("POST", "/comment-groups/"),
       ("PUT", "/comment-groups/\x7bcomment_group_id\x7d"), ("DELETE", "/comment-groups/\x7bcomment_group_id\x7d")]
    hasCustomValidationHandler := false }

/-! ## Shared concrete fixtures -/

/-- The empty stored state. -/
def emptyDB : DB :=
  { problems := [], tags := [], tagGroups := [], comments := [],
    commentGroups := [], judgingCriteria := [] }

/-- Fixture problem from the repository's filter test. -/
def sampleProblem1 : ProblemRow :=
  { problem_id := 1, problem_text := some "Problem 1", answer := some "Answer 1",
    original_text := none, genre_id := some 1, sort_order := none,
    created_by := some 1, updated_by := some 1, tags := [] }

/-- Fixture problem from the repository's filter test. -/
def sampleProblem2 : ProblemRow :=
  { sampleProblem1 with
    problem_id := 2, problem_text := some "Problem 2",
    answer := some "Answer 2", genre_id := some 2 }

/-- Stored state holding the two fixture problems. -/
def sampleDB : DB := { emptyDB with problems := [sampleProblem1, sampleProblem2] }

/-! ## General lemmas about the embedded operations -/

theorem insertSorted_of_lt_false (lt : α → α → Bool) (h : ∀ a b, lt a b = false)
    (x : α) (l : List α) : insertSorted lt x l = x :: l := by
  cases l with
  | nil => rfl
  | cons y ys => simp [insertSorted, h]

theorem stableSort_of_lt_false (lt : α → α → Bool) (h : ∀ a b, lt a b = false) :
    ∀ l : List α, stableSort lt l = l
  | [] => rfl
  | x :: xs => by
    simp [stableSort, stableSort_of_lt_false lt h xs, insertSorted_of_lt_false lt h]

theorem resolveLoop_eq_filterMap (l : List String) :
    resolveLoop l = l.filterMap (fun key =>
      if key ∈ problemAttrs then some (OrderKey.problemAttr key)
      else if key ∈ tagAttrs then some OrderKey.tagName
      else none) := by
  induction l with
  | nil => rfl
  | cons key rest ih =>
    by_cases hp : key ∈ problemAttrs
    · simp [resolveLoop, List.filterMap_cons, hp, ih]
    · by_cases ht : key ∈ tagAttrs <;>
        simp [resolveLoop, List.filterMap_cons, hp, ht, ih]

theorem resolveLoop_eq_nil (l : List String)
    (h : ∀ key ∈ l, key ∉ problemAttrs ∧ key ∉ tagAttrs) : resolveLoop l = [] := by
  induction l with
  | nil => rfl
  | cons key rest ih =>
    have hk := h key (List.mem_cons_self key rest)
    simp [resolveLoop, hk.1, hk.2]
    exact ih (fun k hm => h k (List.mem_cons_of_mem key hm))

/-! ## C1: order_by token resolution -/

theorem applyOrdering_invalid (db : DB) (dir : Option String) (ks : List OrderKey)
    (q : List ProblemRow) (h : ks.all orderKeyValid = false) :
    applyOrdering db dir ks q = Except.error orderKeyError := by
  simp [applyOrdering, h]

theorem applyOrdering_nil (db : DB) (dir : Option String) (q : List ProblemRow) :
    applyOrdering db dir [] q = Except.ok q := by
  show Except.ok (stableSort (fun p r =>
      chainCmp (dir == some "DESC") [] p r == Ordering.lt) q) = Except.ok q
  exact congrArg Except.ok (stableSort_of_lt_false _ (fun a b => rfl) q)

theorem flatMap_nil_fun (l : List α) : (l.flatMap fun _ => ([] : List β)) = [] := by
  induction l with
  | nil => rfl
  | cons a l ih => simp [ih]

/-- Counterexample to C1 as stated.  `metadata` names no field of the
Problem or Tag data model, yet the listing does not silently drop it: the
token passes `hasattr(Problem, key)` (declarative class machinery), the
`MetaData` object is appended as a sort key, and the request fails.  The
relationship token `tags` does name a field on Problem, yet it contributes
no ordering either: the listing fails on it too, since the `getattr` result
is not a column expression. -/
theorem c1_counterexample :
    read_problems sampleDB none none none (some "metadata") (some "DESC")
        = Except.error orderKeyError
    ∧ read_problems sampleDB none none none (some "tags") (some "DESC")
        = Except.error orderKeyError
    ∧ "metadata" ∉ problemFields ∧ "metadata" ∉ tagFields
    ∧ "tags" ∈ problemFields
    ∧ sampleDB.problems ≠ [] :=
  ⟨rfl, rfl, by decide, by decide, by decide, by decide⟩

/-- C1 as amended.  For every `order_by` string: it is split on comma; a
token naming a mapped column of Problem contributes an ordering by that
column, and a token naming a field on Tag instead contributes an ordering
by the tag's un-joined name column — an implicit cross join with the tag
table, so with an empty tag table the listing returns no rows; a token
naming any other attribute the Problem class has (a relationship field, or
non-field class machinery such as `metadata`) is not dropped: it is
appended as a sort key and the listing fails on it; only tokens naming no
attribute of either class are silently dropped, contributing no ordering,
and the listing does not fail because of those.  Concretely,
`order_by=problem_text&order_dir=DESC` on the `{"Problem 1", "Problem 2"}`
fixture returns `"Problem 2"` first. -/
theorem c1_order_by_resolution_amended :
    (∀ order_by : String,
      resolveOrderKeys order_by = (pySplit ',' order_by).filterMap (fun key =>
        if key ∈ problemAttrs then some (OrderKey.problemAttr key)
        else if key ∈ tagAttrs then some OrderKey.tagName
        else none))
    ∧ (∀ (db : DB) (dir : Option String) (ob : String) (key : String),
        key ∈ pySplit ',' ob → key ∈ problemAttrs → key ∉ problemColumnAttrs →
        read_problems db none none none (some ob) dir = Except.error orderKeyError)
    ∧ (∀ (db : DB) (dir : Option String) (ob : String),
        (∀ key ∈ pySplit ',' ob, key ∉ problemAttrs ∧ key ∉ tagAttrs) →
        read_problems db none none none (some ob) dir = Except.ok db.problems)
    ∧ (∀ (db : DB) (dir : Option String), db.tags = [] →
        read_problems db none none none (some "tag_name") dir = Except.ok [])
    ∧ read_problems sampleDB none none none (some "problem_text") (some "DESC")
        = Except.ok [sampleProblem2, sampleProblem1] := by
  refine ⟨fun ob => resolveLoop_eq_filterMap _, ?_, ?_, ?_, rfl⟩
  · intro db dir ob key hsplit hinP hnotCol
    have hobne : ob.isEmpty = false := by
      cases hoe : ob.isEmpty
      · rfl
      · exfalso
        have hempty : ob = "" := (String.isEmpty_iff ob).mp hoe
        subst hempty
        have hkey : key = "" := by simpa [pySplit, splitAux] using hsplit
        subst hkey
        exact absurd hinP (by decide)
    have hk : OrderKey.problemAttr key ∈ resolveOrderKeys ob := by
      show OrderKey.problemAttr key ∈ resolveLoop (pySplit ',' ob)
      rw [resolveLoop_eq_filterMap]
      exact List.mem_filterMap.mpr ⟨key, hsplit, by simp [hinP]⟩
    have hall : (resolveOrderKeys ob).all orderKeyValid = false := by
      cases hA : (resolveOrderKeys ob).all orderKeyValid
      · rfl
      · exfalso
        have hv := List.all_eq_true.mp hA _ hk
        exact hnotCol (by simpa [orderKeyValid] using hv)
    show (if ob.isEmpty then Except.ok db.problems
          else applyOrdering db dir (resolveOrderKeys ob) db.problems)
        = Except.error orderKeyError
    rw [hobne]
    simp only [Bool.false_eq_true, if_false]
    exact applyOrdering_invalid db dir _ _ hall
  · intro db dir ob h
    show (if ob.isEmpty then Except.ok db.problems
          else applyOrdering db dir (resolveOrderKeys ob) db.problems)
        = Except.ok db.problems
    by_cases he : ob.isEmpty
    · simp [he]
    · rw [if_neg he, resolveOrderKeys, resolveLoop_eq_nil _ h]
      exact applyOrdering_nil db dir db.problems
  · intro db dir htags
    show applyOrdering db dir (resolveOrderKeys "tag_name") db.problems = Except.ok []
    have hres : resolveOrderKeys "tag_name" = [OrderKey.tagName] := by decide
    rw [hres]
    simp [applyOrdering, orderKeyValid, crossJoin, htags, flatMap_nil_fun, stableSort,
      dedupById, dedupByIdAux]

/-- Witness for the amended C1: a token naming no attribute of either class
is dropped and the listing succeeds unchanged. -/
theorem c1_order_by_resolution_amended_witness :
    read_problems sampleDB none none none (some "garbage") (some "ASC")
      = Except.ok sampleDB.problems :=
  c1_order_by_resolution_amended.2.2.1 sampleDB (some "ASC") "garbage" (by decide)

/-! ## C10: genre_id filter and Python truthiness -/

/-- Counterexample to C10 as stated.  With `genre_id = 0` the guard
`if genre_id:` is falsy, so no genre filter is applied: the listing returns
the fixture problem whose genre reference is 1, not "exactly the problems
whose genre reference matches 0" (there are none). -/
theorem c10_counterexample :
    read_problems sampleDB (some 0) none none none (some "ASC")
        = Except.ok [sampleProblem1, sampleProblem2]
    ∧ sampleDB.problems.filter (fun p => p.genre_id == some 0) = []
    ∧ sampleProblem1.genre_id ≠ some 0 := by
  refine ⟨rfl, by decide, by decide⟩

/-- C10 as amended: every nonzero `genre_id` restricts the listing to
exactly the problems whose genre reference matches it; `genre_id = 0` is
treated like an absent parameter (Python falsiness) and applies no genre
filter. -/
theorem c10_genre_filter_amended :
    (∀ (db : DB) (g : Int), g ≠ 0 →
      read_problems db (some g) none none none (some "ASC")
        = Except.ok (db.problems.filter (fun p => p.genre_id == some g)))
    ∧ (∀ db : DB,
        read_problems db (some 0) none none none (some "ASC")
          = Except.ok db.problems) := by
  constructor
  · intro db g hg
    show Except.ok (if g = 0 then db.problems
          else db.problems.filter (fun p => p.genre_id == some g))
        = Except.ok (db.problems.filter (fun p => p.genre_id == some g))
    simp [hg]
  · intro db
    rfl

/-- Witness for the amended C10 at `genre_id = 1` over the fixtures. -/
theorem c10_genre_filter_amended_witness :
    read_problems sampleDB (some 1) none none none (some "ASC")
      = Except.ok (sampleDB.problems.filter (fun p => p.genre_id == some 1)) :=
  c10_genre_filter_amended.1 sampleDB 1 (by decide)

/-! ## C5: tag_id filter -/

/-- C5.  A non-empty `tag_id` list restricts the listing to exactly the
problems associated with at least one tag whose identifier is in the list
(existential match); an empty `tag_id` list applies no filter. -/
theorem c5_tag_filter :
    (∀ (db : DB) (ids : List Nat), ids ≠ [] →
      read_problems db none (some ids) none none (some "ASC")
        = Except.ok (db.problems.filter (fun p =>
            decide (∃ t ∈ db.tags, t.tag_id ∈ ids ∧ t.tag_id ∈ p.tags))))
    ∧ (∀ db : DB,
        read_problems db none (some []) none none (some "ASC")
          = Except.ok db.problems) := by
  constructor
  · intro db ids hids
    have hne : ids.isEmpty = false := by
      cases ids with
      | nil => exact absurd rfl hids
      | cons a l => rfl
    show Except.ok (if ids.isEmpty then db.problems
          else db.problems.filter (fun p =>
            p.tags.any (fun tid =>
              db.tags.any (fun t => t.tag_id == tid && List.elem t.tag_id ids))))
        = _
    rw [hne]
    simp only [Bool.false_eq_true, if_false]
    refine congrArg Except.ok ?_
    apply List.filter_congr
    intro p hp
    rw [Bool.eq_iff_iff]
    simp only [List.any_eq_true, Bool.and_eq_true, beq_iff_eq, List.elem_iff,
      decide_eq_true_eq]
    constructor
    · rintro ⟨tid, htid, t, ht, heq, hin⟩
      exact ⟨t, ht, hin, heq ▸ htid⟩
    · rintro ⟨t, ht, hin, hmem⟩
      exact ⟨t.tag_id, hmem, t, ht, rfl, hin⟩
  · intro db
    rfl

/-- Three fixture problems for the spec's tag scenario; only the second is
associated with tag 7. -/
def tagScenarioDB : DB :=
  { emptyDB with
    problems :=
      [sampleProblem1,
       { sampleProblem1 with problem_id := 2, tags := [7] },
       { sampleProblem1 with problem_id := 3, tags := [8] }]
    tags :=
      [{ tag_id := 7, tag_group_id := some 1, tag_name := some "T",
         sort_order := none, created_by := none, updated_by := none },
       { tag_id := 8, tag_group_id := some 1, tag_name := some "U",
         sort_order := none, created_by := none, updated_by := none }] }

/-- Witness for C5: filtering the three-problem scenario by `tag_id=[7]`. -/
theorem c5_tag_filter_witness :
    read_problems tagScenarioDB none (some [7]) none none (some "ASC")
      = Except.ok (tagScenarioDB.problems.filter (fun p =>
          decide (∃ t ∈ tagScenarioDB.tags, t.tag_id ∈ [7] ∧ t.tag_id ∈ p.tags))) :=
  c5_tag_filter.1 tagScenarioDB [7] (by decide)

/-! ## C4: keyword filter -/

theorem tailsOf_any_isEmpty : ∀ ts : List Char, (tailsOf ts).any (fun s => s.isEmpty) = true
  | [] => rfl
  | t :: ts => by simp [tailsOf, List.any_cons, tailsOf_any_isEmpty ts]

theorem list_any_congr (l : List α) (f g : α → Bool) (h : ∀ a ∈ l, f a = g a) :
    l.any f = l.any g := by
  induction l with
  | nil => rfl
  | cons a l ih =>
    simp only [List.any_cons, h a (List.mem_cons_self a l),
      ih (fun x hx => h x (List.mem_cons_of_mem a hx))]

theorem likeMatch_percent (ps ts : List Char) :
    likeMatch ('%' :: ps) ts = (tailsOf ts).any (fun s => likeMatch ps s) := by
  simp [likeMatch]

theorem likeMatch_cons_ne (p : Char) (hp : p ≠ '%') (hu : p ≠ '_') (ps : List Char) :
    likeMatch (p :: ps) [] = false
    ∧ ∀ t ts, likeMatch (p :: ps) (t :: ts) = (charEqCI p t && likeMatch ps ts) := by
  constructor
  · simp [likeMatch, hp, hu]
  · intro t ts
    simp [likeMatch, hp, hu]

/-- A wildcard-free pattern followed by a single `%` matches exactly the
texts it is a case-insensitive prefix of. -/
theorem prefixCI_likeMatch (kw : List Char) (h : ∀ c ∈ kw, c ≠ '%' ∧ c ≠ '_') :
    ∀ ts, likeMatch (kw ++ ['%']) ts = prefixCI kw ts := by
  induction kw with
  | nil =>
    intro ts
    rw [List.nil_append, likeMatch_percent]
    show (tailsOf ts).any (fun s => s.isEmpty) = true
    exact tailsOf_any_isEmpty ts
  | cons c kw ih =>
    have hc := h c (List.mem_cons_self c kw)
    have hrest : ∀ x ∈ kw, x ≠ '%' ∧ x ≠ '_' :=
      fun x hx => h x (List.mem_cons_of_mem c hx)
    intro ts
    cases ts with
    | nil =>
      rw [List.cons_append, (likeMatch_cons_ne c hc.1 hc.2 (kw ++ ['%'])).1]
      rfl
    | cons t ts2 =>
      rw [List.cons_append, (likeMatch_cons_ne c hc.1 hc.2 (kw ++ ['%'])).2 t ts2,
        ih hrest ts2]
      rfl

/-- For a wildcard-free keyword, the `%keyword%` ILIKE pattern decides
exactly case-insensitive substring containment. -/
theorem substrCI_likeMatch (kw : List Char) (h : ∀ c ∈ kw, c ≠ '%' ∧ c ≠ '_')
    (ts : List Char) : likeMatch ('%' :: (kw ++ ['%'])) ts = substrCI kw ts := by
  rw [likeMatch_percent]
  unfold substrCI
  exact list_any_congr _ _ _ (fun s _ => prefixCI_likeMatch kw h s)

/-- Counterexample to C4 as stated.  The keyword is interpolated into the
ILIKE pattern unescaped, so a keyword consisting of the wildcard `%`
matches every problem, while no fixture text contains `%` as a substring:
the listing is not "exactly the problems whose problem text contains the
keyword". -/
theorem c4_counterexample :
    read_problems sampleDB none none (some "%") none (some "ASC")
        = Except.ok [sampleProblem1, sampleProblem2]
    ∧ sampleDB.problems.filter (fun p =>
        match p.problem_text with
        | some t => substrCI "%".toList t.toList
        | none => false) = [] :=
  ⟨rfl, by decide⟩

/-- C4 as amended: for every non-empty keyword containing no SQL LIKE
wildcard character (`%` or `_`), the listing returns exactly the problems
whose problem text contains the keyword case-insensitively as a substring
(a NULL text matches nothing); keywords containing wildcards are
interpolated unescaped and act as pattern wildcards; the empty keyword is
treated as no filter. -/
theorem c4_keyword_filter_amended :
    (∀ (db : DB) (kw : String), kw ≠ "" →
      (∀ c ∈ kw.toList, c ≠ '%' ∧ c ≠ '_') →
      read_problems db none none (some kw) none (some "ASC")
        = Except.ok (db.problems.filter (fun p =>
            match p.problem_text with
            | some t => substrCI kw.toList t.toList
            | none => false)))
    ∧ (∀ db : DB, read_problems db none none (some "") none (some "ASC")
        = Except.ok db.problems) := by
  constructor
  · intro db kw hne hw
    have hke : kw.isEmpty = false := by
      cases hk : kw.isEmpty
      · rfl
      · exact absurd ((String.isEmpty_iff kw).mp hk) hne
    show Except.ok (if kw.isEmpty then db.problems
          else db.problems.filter (fun p => ilikeKeyword kw p.problem_text)) = _
    rw [hke]
    simp only [Bool.false_eq_true, if_false]
    refine congrArg Except.ok ?_
    apply List.filter_congr
    intro p hp
    cases hpt : p.problem_text with
    | none => rfl
    | some t => exact substrCI_likeMatch kw.toList hw t.toList
  · intro db
    rfl

/-- Witness for the amended C4: the case-insensitive keyword `roblem`
selects both fixture problems. -/
theorem c4_keyword_filter_amended_witness :
    read_problems sampleDB none none (some "roblem") none (some "ASC")
      = Except.ok (sampleDB.problems.filter (fun p =>
          match p.problem_text with
          | some t => substrCI "roblem".toList t.toList
          | none => false)) :=
  c4_keyword_filter_amended.1 sampleDB "roblem" (by decide) (by decide)

/-! ## C3: partial updates -/

/-- The partial body of the repository's own `test_update_problem`:
`{"problem_text": "Updated problem", "answer": "Updated answer"}`. -/
def partialProblemUpdateBody : ProblemUpdateBody :=
  { problem_text := some (some "Updated problem"),
    answer := some (some "Updated answer") }

/-- A full `ProblemUpdate` body: every schema field present, as pydantic v2
requires of any body that is to pass validation. -/
def fullProblemUpdateBody : ProblemUpdateBody :=
  { problem_text := some (some "Updated problem"),
    answer := some (some "Updated answer"),
    original_text := some none, genre_id := some (some 3), sort_order := some none,
    tags := some [], judging_criteria := some (some []) }

/-- The `model_dump(exclude_unset=True)` dict of the full body: every key
present. -/
def fullProblemUpdateData : ProblemUpdateData :=
  { problem_text := some (some "Updated problem"),
    answer := some (some "Updated answer"),
    original_text := some none, genre_id := some (some 3), sort_order := some none,
    tags := some [], judging_criteria := some (some []) }

/-- The first fixture problem after the full update is applied. -/
def updatedSampleProblem1 : ProblemRow :=
  { problem_id := 1, problem_text := some "Updated problem",
    answer := some "Updated answer", original_text := none, genre_id := some 3,
    sort_order := none, created_by := some 1, updated_by := some 1, tags := [] }

/-- C3 evaluated at its failing input: the partial update body of the
repository's own `test_update_problem` is rejected with 422 by pydantic v2
validation (every `ProblemUpdate` field is `T | None` with no default,
hence required under v2, the version the handlers' `model_dump` calls pin),
and likewise a body setting only `tag_name` on a tag — partial bodies never
reach the `setattr` loop, so the claimed selective overwrite does not
happen.  A full body does validate, and then the handler overwrites the
supplied fields while leaving the primary key and the creator/updater
references unchanged: the loop itself has the claimed frame behaviour, but
only total bodies can reach it.  A non-empty `tags` value makes the update
fail outright (relationship assignment of plain ids raises). -/
theorem c3_partial_update_code_bug :
    validateProblemUpdate partialProblemUpdateBody
        = Except.error (OpError.http 422 "Field required")
    ∧ validateTagUpdate { tag_name := some (some "Renamed") }
        = Except.error (OpError.http 422 "Field required")
    ∧ validateProblemUpdate fullProblemUpdateBody = Except.ok fullProblemUpdateData
    ∧ update_problem sampleDB 1 fullProblemUpdateData
        = ({ sampleDB with problems := [updatedSampleProblem1, sampleProblem2] },
           Except.ok updatedSampleProblem1)
    ∧ updatedSampleProblem1.problem_id = sampleProblem1.problem_id
    ∧ updatedSampleProblem1.created_by = sampleProblem1.created_by
    ∧ updatedSampleProblem1.updated_by = sampleProblem1.updated_by
    ∧ update_problem sampleDB 1 { tags := some [5] }
        = (sampleDB, Except.error relationshipAssignError) :=
  ⟨rfl, rfl, rfl, rfl, rfl, rfl, rfl, rfl⟩

/-! ## C7: not-found semantics -/

theorem find?_eraseP_pk (f : α → Nat) (k : Nat) :
    ∀ l : List α, (l.map f).Nodup →
      (l.eraseP (fun r => f r == k)).find? (fun r => f r == k) = none := by
  intro l
  induction l with
  | nil => intro h; rfl
  | cons a l ih =>
    intro h
    rw [List.map_cons, List.nodup_cons] at h
    by_cases ha : (f a == k) = true
    · rw [List.eraseP_cons, ha]
      show l.find? (fun r => f r == k) = none
      rw [List.find?_eq_none]
      intro x hx hfx
      have hak : f a = k := by simpa using ha
      have hxk : f x = k := by simpa using hfx
      have hmem : f x ∈ List.map f l := List.mem_map_of_mem f hx
      rw [hxk, ← hak] at hmem
      exact h.1 hmem
    · have ha2 : (f a == k) = false := by simpa using ha
      rw [List.eraseP_cons, ha2]
      show (a :: l.eraseP (fun r => f r == k)).find? (fun r => f r == k) = none
      rw [List.find?_cons, ha2]
      exact ih h.2

/-- C7.  Read-one, update and delete on an identifier that does not exist
return a 404 `HTTPException` whose detail names the entity type, and leave
the stored state unchanged; and (primary keys being unique) after a delete
the same identifier is no longer found — in particular `read_problem` after
`delete_problem` yields the 404 not-found error. -/
theorem c7_not_found_semantics :
    (∀ (db : DB) (pid : Nat) (u : ProblemUpdateData),
        db.problems.find? (fun p => p.problem_id == pid) = none →
          read_problem db pid = Except.error (OpError.http 404 "Problem not found")
          ∧ update_problem db pid u
              = (db, Except.error (OpError.http 404 "Problem not found"))
          ∧ delete_problem db pid
              = (db, Except.error (OpError.http 404 "Problem not found")))
    ∧ (∀ (db : DB) (gid : Nat) (u : TagGroupUpdateData),
        db.tagGroups.find? (fun g => g.tag_group_id == gid) = none →
          update_tag_group db gid u
              = (db, Except.error (OpError.http 404 "TagGroup not found"))
          ∧ delete_tag_group db gid
              = (db, Except.error (OpError.http 404 "TagGroup not found")))
    ∧ (∀ (db : DB) (tid : Nat) (u : TagUpdateData),
        db.tags.find? (fun t => t.tag_id == tid) = none →
          update_tag db tid u = (db, Except.error (OpError.http 404 "Tag not found")))
    ∧ (∀ (db : DB) (cid : Nat) (u : CommentUpdateData),
        db.comments.find? (fun c => c.comment_id == cid) = none →
          update_comment db cid u
              = (db, Except.error (OpError.http 404 "Comment not found"))
          ∧ delete_comment db cid
              = (db, Except.error (OpError.http 404 "Comment not found")))
    ∧ (∀ (db : DB) (gid : Nat) (u : CommentGroupUpdateData),
        db.commentGroups.find? (fun g => g.comment_group_id == gid) = none →
          update_comment_group db gid u
              = (db, Except.error (OpError.http 404 "CommentGroup not found"))
          ∧ delete_comment_group db gid
              = (db, Except.error (OpError.http 404 "CommentGroup not found")))
    ∧ (∀ (db : DB) (pid : Nat), (db.problems.map (fun p => p.problem_id)).Nodup →
        read_problem (delete_problem db pid).1 pid
          = Except.error (OpError.http 404 "Problem not found"))
    ∧ (∀ (db : DB) (cid : Nat), (db.comments.map (fun c => c.comment_id)).Nodup →
        (delete_comment db cid).1.comments.find? (fun c => c.comment_id == cid) = none)
    ∧ (∀ (db : DB) (gid : Nat), (db.tagGroups.map (fun g => g.tag_group_id)).Nodup →
        (delete_tag_group db gid).1.tagGroups.find?
          (fun g => g.tag_group_id == gid) = none)
    ∧ (∀ (db : DB) (gid : Nat), (db.commentGroups.map (fun g => g.comment_group_id)).Nodup →
        (delete_comment_group db gid).1.commentGroups.find?
          (fun g => g.comment_group_id == gid) = none) := by
  refine ⟨?_, ?_, ?_, ?_, ?_, ?_, ?_, ?_, ?_⟩
  · intro db pid u h
    exact ⟨by simp [read_problem, h], by simp [update_problem, h],
      by simp [delete_problem, h]⟩
  · intro db gid u h
    exact ⟨by simp [update_tag_group, h], by simp [delete_tag_group, h]⟩
  · intro db tid u h
    simp [update_tag, h]
  · intro db cid u h
    exact ⟨by simp [update_comment, h], by simp [delete_comment, h]⟩
  · intro db gid u h
    exact ⟨by simp [update_comment_group, h], by simp [delete_comment_group, h]⟩
  · intro db pid hnd
    cases hfind : db.problems.find? (fun p => p.problem_id == pid) with
    | none => simp [delete_problem, read_problem, hfind]
    | some p =>
      simp only [delete_problem, hfind]
      simp [read_problem, find?_eraseP_pk (fun p => p.problem_id) pid db.problems hnd]
  · intro db cid hnd
    cases hfind : db.comments.find? (fun c => c.comment_id == cid) with
    | none => simp [delete_comment, hfind]
    | some c =>
      simp only [delete_comment, hfind]
      exact find?_eraseP_pk (fun c => c.comment_id) cid db.comments hnd
  · intro db gid hnd
    cases hfind : db.tagGroups.find? (fun g => g.tag_group_id == gid) with
    | none => simp [delete_tag_group, hfind]
    | some g =>
      simp only [delete_tag_group, hfind]
      exact find?_eraseP_pk (fun g => g.tag_group_id) gid db.tagGroups hnd
  · intro db gid hnd
    cases hfind : db.commentGroups.find? (fun g => g.comment_group_id == gid) with
    | none => simp [delete_comment_group, hfind]
    | some g =>
      simp only [delete_comment_group, hfind]
      exact find?_eraseP_pk (fun g => g.comment_group_id) gid db.commentGroups hnd

/-- Witness for C7: reading a missing problem id over the fixtures yields
the 404 not-found error with the entity-naming detail. -/
theorem c7_not_found_semantics_witness :
    read_problem sampleDB 99 = Except.error (OpError.http 404 "Problem not found") :=
  (c7_not_found_semantics.1 sampleDB 99 {} (by decide)).1

/-! ## C2: problem creation with judging criteria -/

/-- The judging criterion from the spec's scenario. -/
def franceCriteria : JudgingCriteriaCreateData :=
  { criteria_type := "accuracy", criteria_text := "Must be correct" }

/-- The spec's problem-creation scenario carrying exactly one judging
criterion. -/
def franceProblemCreate : ProblemCreateData :=
  { problem_text := "What is the capital of France?", answer := "Paris",
    original_text := none, genre_id := some 1, sort_order := some 1,
    tags := [], judging_criteria := [franceCriteria] }

/-- C2 evaluated at its failing input: creating a Problem with exactly one
judging criterion raises `AttributeError` (`criteria_data.dict()` on a
plain dict) before anything is committed — no problem row and no criterion
row are persisted, against the claim that exactly one criterion row
referencing the new problem is.  Creation with an empty criteria list does
persist the problem row, isolating the slip to the criteria loop. -/
theorem c2_create_problem_criteria_code_bug :
    create_problem emptyDB franceProblemCreate = (emptyDB, Except.error dictOnDictError)
    ∧ (create_problem emptyDB franceProblemCreate).1.judgingCriteria = []
    ∧ (create_problem emptyDB
        { franceProblemCreate with judging_criteria := [] }).1.problems.length = 1 :=
  ⟨rfl, rfl, rfl⟩

/-! ## C6: problem update with judging criteria -/

/-- A pre-existing criteria row attached to problem 1. -/
def existingCriteria : JudgingCriteriaRow :=
  { problem_id := some 1, criteria_type := some "legacy", criteria_text := some "old" }

/-- Stored state with one problem that already has one criteria row. -/
def c6DB : DB := { emptyDB with problems := [sampleProblem1], judgingCriteria := [existingCriteria] }

/-- An update body supplying one judging criterion. -/
def c6Update : ProblemUpdateData :=
  { judging_criteria :=
      some (some [{ criteria_type := some "accuracy", criteria_text := some "Must be correct" }]) }

/-- C6 evaluated at its failing input: updating an existing problem with a
non-empty `judging_criteria` list raises `AttributeError`
(`criteria_data.dict()` on a plain dict) before the commit: no new
criterion row is inserted (against the claim's additive insertion), and the
stored state — the existing criteria row included — is unchanged. -/
theorem c6_update_problem_criteria_code_bug :
    update_problem c6DB 1 c6Update = (c6DB, Except.error dictOnDictError)
    ∧ (update_problem c6DB 1 c6Update).1.judgingCriteria = [existingCriteria] :=
  ⟨rfl, rfl⟩

/-! ## C8: 422 responses for invalid bodies -/

/-- C8 evaluated on the application wiring: the custom empty-body 422
handler is registered only on the application object of `app/main.py`,
which defines no routes; the application that actually serves
`POST /problems/` has no custom handler, so a schema-validation failure
there produces the framework's default 422 body carrying the error detail
list — not the empty JSON body the claim requires. -/
theorem c8_validation_error_wiring_code_bug :
    mainApp.hasCustomValidationHandler = true
    ∧ mainApp.routes = []
    ∧ respondValidationFailure mainApp ["problem_text: field required"]
        = (422, ValidationBody.emptyObject)
    ∧ ("POST", "/problems/") ∈ problemApiApp.routes
    ∧ problemApiApp.hasCustomValidationHandler = false
    ∧ respondValidationFailure problemApiApp ["problem_text: field required"]
        = (422, ValidationBody.detailList ["problem_text: field required"])
    ∧ respondValidationFailure problemApiApp ["problem_text: field required"]
        ≠ (422, ValidationBody.emptyObject) := by
  refine ⟨rfl, rfl, rfl, by decide, rfl, rfl, by decide⟩

/-! ## C9: empty comment body -/

/-- A comment-creation request whose `body` is present and empty. -/
def emptyBodyCommentRequest : CommentCreateBody :=
  { comment_group_id := some (some 1), body := some "" }

/-- C9 evaluated at its failing input: `CommentCreate` validation accepts
`body = ""` (the schema declares `body : str` with no minimum length), and
`create_comment` then persists exactly one comment row whose body is the
empty string — against the claim that the request is rejected by
validation with no row persisted. -/
theorem c9_empty_comment_body_code_bug :
    validateCommentCreate emptyBodyCommentRequest
        = Except.ok { comment_group_id := some 1, body := "" }
    ∧ (create_comment emptyDB 1 { comment_group_id := some 1, body := "" }).2
        = Except.ok
            { comment_id := 1, problem_id := some 1, comment_group_id := some 1,
              title := none, body := some "", created_by := none, updated_by := none }
    ∧ (create_comment emptyDB 1 { comment_group_id := some 1, body := "" }).1.comments.length
        = 1 :=
  ⟨rfl, rfl, rfl⟩

end QuizBackend
